import Mathlib

/-!
Verification of the eeSAR Sentinel-1 collection builder
(`eeSAR/s1/s1_collection.py` and the helpers `eeSAR/misc/_quegan.py`,
`eeSAR/misc/_slope_correction.py`).

The repository builds a lazy expression graph against a remote platform;
the locally decidable content is which transformation steps `pre_process`
appends for a given configuration, in which order, the local date-range
defaulting, the membership predicates of the filters it installs, the
metadata handling of the helpers, and which configurations raise locally
while the graph is being built.  These are embedded below: step selection
as a list of named steps, the per-step effect on band names (with
`Except` marking a local Python error), per-pixel masks as boolean
predicates over the values the remote reducers feed them, and image
metadata as association lists.
-/

namespace EeSar

/-- Parameters of the Quegan multitemporal speckle filter
(`speckle_filter_dict` in `s1_collection.create`). -/
structure SpeckleFilterDict where
  radius : ℚ
  units : String
  time_window : Int
deriving DecidableEq, Repr

/-- Parameters of the radiometric terrain correction
(`slope_correction_dict` in `s1_collection.create`). -/
structure SlopeCorrectionDict where
  model : String
  dem : String
  buffer : Int
deriving DecidableEq, Repr

/-- Python truthiness of an optional date argument, with dates represented
by their millisecond timestamps (one of the accepted input forms): `None`,
and the falsy timestamp 0, are falsy. -/
def truthyOpt : Option Int → Bool
  | none => false
  | some n => n != 0

/-- The configuration arguments of `s1_collection.create` that influence
which transformation steps are applied. -/
structure Config where
  start_date : Option Int
  end_date : Option Int
  target_date : Option Int
  add_ratio : Bool
  add_ND_ratio : Bool
  speckle_filter : String
  speckle_filter_dict : SpeckleFilterDict
  radiometric_correction : String
  slope_correction_dict : SlopeCorrectionDict
  outlier_removal : String
  db : Bool
deriving DecidableEq, Repr

/-- The named transformation steps that `pre_process` can append. -/
inductive Step where
  | boxcar_filter
  | refined_lee
  | quegan
  | to_gamma0
  | terrain_flattening
  | mask_overlay
  | add_date_bands
  | add_ratio_band
  | add_ND_ratio_band
  | snic_filter
  | toDb
  | mask_borders
deriving DecidableEq, Repr

/-- The list of steps assembled by `pre_process` in `s1_collection.create`:
each `if` of the Python code contributes its step(s) in source order, and
`mask_borders` is appended unconditionally at the end.  Note that the
SNIC condition of the source compares `speckle_filter` against the literal
SNC, not SNIC. -/
def steps (c : Config) : List Step :=
  (if c.speckle_filter = "BOXCAR" then [Step.boxcar_filter]
   else if c.speckle_filter = "REFINED_LEE" then [Step.refined_lee]
   else if c.speckle_filter = "QUEGAN" then [Step.quegan]
   else [])
  ++ (if c.radiometric_correction = "ELLIPSOID" then [Step.to_gamma0]
      else if c.radiometric_correction = "TERRAIN" then
        [Step.terrain_flattening, Step.mask_overlay]
      else [])
  ++ (if truthyOpt c.target_date then [Step.add_date_bands] else [])
  ++ (if c.add_ratio then [Step.add_ratio_band] else [])
  ++ (if c.add_ND_ratio then [Step.add_ND_ratio_band] else [])
  ++ (if c.speckle_filter = "SNC" then [Step.snic_filter] else [])
  ++ (if c.db then [Step.toDb] else [])
  ++ [Step.mask_borders]

/-- The fixed master order of all steps `pre_process` can use. -/
def masterOrder : List Step :=
  [Step.boxcar_filter, Step.refined_lee, Step.quegan,
   Step.to_gamma0, Step.terrain_flattening, Step.mask_overlay,
   Step.add_date_bands, Step.add_ratio_band, Step.add_ND_ratio_band,
   Step.snic_filter, Step.toDb, Step.mask_borders]

/-- Which steps the configuration selects (reading off the conditions of
the `if`s in `pre_process`). -/
def selected (c : Config) : Step → Bool
  | Step.boxcar_filter => c.speckle_filter = "BOXCAR"
  | Step.refined_lee => c.speckle_filter = "REFINED_LEE"
  | Step.quegan => c.speckle_filter = "QUEGAN"
  | Step.to_gamma0 => c.radiometric_correction = "ELLIPSOID"
  | Step.terrain_flattening => c.radiometric_correction = "TERRAIN"
  | Step.mask_overlay => c.radiometric_correction = "TERRAIN"
  | Step.add_date_bands => truthyOpt c.target_date
  | Step.add_ratio_band => c.add_ratio
  | Step.add_ND_ratio_band => c.add_ND_ratio
  | Step.snic_filter => c.speckle_filter = "SNC"
  | Step.toDb => c.db
  | Step.mask_borders => true

/-- The radiometric-correction steps among all steps. -/
def isRadioStep : Step → Bool
  | Step.to_gamma0 => true
  | Step.terrain_flattening => true
  | Step.mask_overlay => true
  | _ => false

/-- Band names after `image.addBands(new, None, True)` (overwrite mode):
bands of `new` replace same-named bands in place, genuinely new names are
appended. -/
def addBandsOverwrite (orig new : List String) : List String :=
  orig ++ new.filter (fun b => !orig.contains b)

/-- The four metadata band names introduced by `add_date_bands`. -/
def dateBandNames : List String :=
  ["dayOfYear", "daysFromTarget", "quality", "unixTimeDays"]

/-- Band names produced by `_slope_correction.correct`: the flattened
`gamma0_flat` bands VV and VH, then `angle`, the local incidence angle
band LIA, and the three bands of `_masking`.  When `model` is neither
`volume` nor `surface`, neither of the two `if`s in `correct` binds `scf`,
and `gamma0.divide(scf)` raises a local Python error (unbound local
variable) while the expression graph is being built. -/
def correctBands (model : String) : Except String (List String) :=
  if model = "volume" || model = "surface" then
    Except.ok ["VV", "VH", "angle", "LIA", "layover", "shadow", "no_data_mask"]
  else
    Except.error ("UnboundLocalError: scf")

/-- The effect of each `pre_process` step on the list of band names of the
image being processed; `Except.error` marks a step that raises locally
while the expression graph is built.  The step `refined_lee` lives in
`_refined_lee`, whose code is absent here; modelled from the spec as a
pure denoising operator of the intensity bands, hence band-preserving and
never failing locally. -/
def stepBands (c : Config) (s : Step) (bs : List String) :
    Except String (List String) :=
  match s with
  | Step.boxcar_filter => Except.ok (addBandsOverwrite bs ["VV", "VH"])
  | Step.refined_lee => Except.ok bs
  | Step.quegan => Except.ok bs
  | Step.to_gamma0 => Except.ok (addBandsOverwrite bs ["VV", "VH"])
  | Step.terrain_flattening => correctBands c.slope_correction_dict.model
  | Step.mask_overlay => Except.ok bs
  | Step.add_date_bands => Except.ok (bs ++ dateBandNames)
  | Step.add_ratio_band => Except.ok (bs ++ ["VVVH_ratio"])
  | Step.add_ND_ratio_band => Except.ok (bs ++ ["VVVH_ND_ratio"])
  | Step.snic_filter =>
    Except.ok (addBandsOverwrite bs ["VV", "VH", "VVVH_ratio", "VVVH_ND_ratio"])
  | Step.toDb => Except.ok (addBandsOverwrite bs ["VV", "VH"])
  | Step.mask_borders => Except.ok bs

/-- Sequential application of a list of steps (the `reduce` at the end of
`pre_process`), stopping at the first local error. -/
def runSteps (c : Config) : List Step → List String → Except String (List String)
  | [], bs => Except.ok bs
  | s :: rest, bs =>
    match stepBands c s bs with
    | Except.ok bs2 => runSteps c rest bs2
    | Except.error e => Except.error e

/-- The function `pre_process` at the level of band names and local
errors. -/
def pre_processE (c : Config) (bs : List String) : Except String (List String) :=
  runSteps c (steps c) bs

/-- Milliseconds per day, as an integer. -/
def millisPerDay : Int := 1000 * 60 * 60 * 24

/-- Modelled from the spec: the dates helper module (`eeSAR.misc.dates`)
is not among the sources; per the spec, a date range bound is derived by
subtracting a fixed day offset (183 days) from a target date.  Dates are
millisecond timestamps. -/
def subtract_days (t d : Int) : Int := t - d * millisPerDay

/-- Modelled from the spec: counterpart of `subtract_days`, adding the
fixed day offset. -/
def add_days (t d : Int) : Int := t + d * millisPerDay

/-- The date-defaulting logic at the top of `create`: `days = 366 / 2`
(the float 183.0, an integral number of days), and each bound is defaulted
only when `target_date` is truthy and the bound itself is falsy. -/
def resolve_dates (target_date start_date end_date : Option Int) :
    Option Int × Option Int :=
  let days : Int := 183
  let s :=
    if truthyOpt target_date && !truthyOpt start_date then
      some (subtract_days (target_date.getD 0) days)
    else start_date
  let e :=
    if truthyOpt target_date && !truthyOpt end_date then
      some (add_days (target_date.getD 0) days)
    else end_date
  (s, e)

/-- Metadata of a Sentinel-1 image, as used by the filters of
`_quegan.apply`; acquisition time is a millisecond timestamp. -/
structure S1Img where
  resolution_meters : Int
  instrumentMode : String
  transmitterReceiverPolarisation : List String
  timeStart : Int
  relativeOrbitNumber_start : Int
deriving DecidableEq, Repr

/-- Whether a candidate image belongs to the reference collection built in
`_quegan.apply` for filtering `img`: the five filters of the source, in
order — `resolution_meters` equals 10, `instrumentMode` equals IW, both VV
and VH polarisations present, acquisition date at or after
`t.advance(-time_window, month)` and strictly before
`t.advance(time_window, month)` (`filterDate` is start-inclusive,
end-exclusive), and equal `relativeOrbitNumber_start`.  The calendar
month arithmetic of the platform is the parameter `advance`. -/
def queganRefFilter (advance : Int → Int → Int) (time_window : Int)
    (img cand : S1Img) : Bool :=
  (cand.resolution_meters == 10) &&
  (cand.instrumentMode == "IW") &&
  (cand.transmitterReceiverPolarisation.contains ("VV") &&
   cand.transmitterReceiverPolarisation.contains ("VH")) &&
  (decide (advance img.timeStart (-time_window) ≤ cand.timeStart) &&
   decide (cand.timeStart < advance img.timeStart time_window)) &&
  (cand.relativeOrbitNumber_start == img.relativeOrbitNumber_start)

/-- The reference-collection membership as the claim words it: exactly
those Sentinel-1 images acquired between `time_window` months before and
`time_window` months after the date of the filtered image, further
restricted to the same relative orbit number. -/
def queganRefFilterSpec (advance : Int → Int → Int) (time_window : Int)
    (img cand : S1Img) : Bool :=
  (decide (advance img.timeStart (-time_window) ≤ cand.timeStart) &&
   decide (cand.timeStart < advance img.timeStart time_window)) &&
  (cand.relativeOrbitNumber_start == img.relativeOrbitNumber_start)

/-- A concrete stand-in for the calendar-month `advance` of the platform,
used only to instantiate theorems at concrete inputs: months of 30 days in
milliseconds. -/
def advLinear (t n : Int) : Int := t + n * 2592000000

/-- Result of the tail of `create`: either `mask_outliers` with the given
`std_devs` multiplier is applied to the collection, or the collection is
returned as built. -/
inductive OutlierResult where
  | masked (std_devs : ℚ)
  | plain
deriving DecidableEq, Repr

/-- The `outlier_removal` dispatch at the end of `create`. -/
def create_outlier_stage (outlier_removal : String) : OutlierResult :=
  if outlier_removal = "MODERATE" then OutlierResult.masked 3
  else if outlier_removal = "AGGRESSIVE" then OutlierResult.masked 2.6
  else OutlierResult.plain

/-- Per-pixel mask computed by `mask_outliers`: each band value is kept
when its absolute deviation from the collection median is at most
`std_dev * std_devs`, and the per-band boolean results are combined with
the min reducer, i.e. both VV and VH must pass. -/
def mask_outliers_keep (vv vh medVV medVH sdVV sdVH std_devs : ℚ) : Bool :=
  decide (|vv - medVV| ≤ sdVV * std_devs) &&
  decide (|vh - medVH| ≤ sdVH * std_devs)

/-- Per-pixel mask computed by `mask_borders`:
`angle.gt(31).And(angle.lt(45)).And(middle_slice.Or(not_border))`, where
`middle_slice` is `slice_number.gt(1).And(slice_number.lt(total_slices))`
and `not_border` abbreviates the neighbourhood all-non-zero reduction of
the VV mask. -/
def mask_borders_keep (angle : ℚ) (sliceNumber totalSlices : Int)
    (not_border : Bool) : Bool :=
  (decide (angle > 31) && decide (angle < 45)) &&
  ((decide (sliceNumber > 1) && decide (sliceNumber < totalSlices)) ||
   not_border)

/-- Milliseconds per day as a rational (`millisPerDay` in
`add_date_bands`). -/
def millisPerDayQ : ℚ := 1000 * 60 * 60 * 24

/-- First value of a named band in a band list. -/
def lookupBand (bs : List (String × ℚ)) (k : String) : Option ℚ :=
  (bs.find? (fun kv => kv.1 == k)).map (fun kv => kv.2)

/-- Value-level content of `add_date_bands` for an image acquired at
millisecond timestamp `t` with target date `target`: the band
daysFromTarget is `date.difference(ee.Date(target_date), day).abs()`,
quality is `days_from_target.multiply(-1)`, unixTimeDays is
`date.millis().divide(millisPerDay)`; dayOfYear is
`date.getRelative(day, year)`, a calendar computation of the platform,
taken here as the parameter `day_of_year`.  The remote integer casts
(uint16/int16) are applied on the platform and not modelled. -/
def add_date_bands_vals (day_of_year t target : ℚ)
    (img : List (String × ℚ)) : List (String × ℚ) :=
  let days_from_target : ℚ := |(t - target) / millisPerDayQ|
  let unix_time_days : ℚ := t / millisPerDayQ
  img ++ [("dayOfYear", day_of_year),
          ("daysFromTarget", days_from_target),
          ("quality", days_from_target * (-1)),
          ("unixTimeDays", unix_time_days)]

/-- Metadata of an image: its non-system properties and its
system:time_start (absent on freshly computed images). -/
structure EImage where
  props : List (String × Int)
  timeStart : Option Int
deriving DecidableEq, Repr

/-- First value of a named property. -/
def getProp (ps : List (String × Int)) (k : String) : Option Int :=
  (ps.find? (fun kv => kv.1 == k)).map (fun kv => kv.2)

/-- Semantics of `dst.copyProperties(src)`: the non-system properties of
`src` are copied onto `dst` (the field `props` holds exactly the
non-system properties); system properties such as system:time_start are
not copied. -/
def copyProperties (dst src : EImage) : EImage :=
  { dst with props := dst.props ++ src.props }

/-- A freshly computed image (e.g. the result of band arithmetic): no
metadata properties, no system:time_start. -/
def freshComputed : EImage := { props := [], timeStart := none }

/-- Semantics of `image.set(system:time_start, v)`. -/
def set_time_start (i : EImage) (v : Option Int) : EImage :=
  { i with timeStart := v }

/-- The metadata tail of `_quegan.apply`:
`copyProperties(image).set(system:time_start, image.get(system:time_start))`
applied to the freshly computed filtered image. -/
def queganApplyMeta (image : EImage) : EImage :=
  set_time_start (copyProperties freshComputed image) image.timeStart

/-- The metadata tail of `_slope_correction.correct`: the same
`copyProperties` and `set(system:time_start, ...)` pattern applied to the
freshly computed corrected image. -/
def correctMeta (image : EImage) : EImage :=
  set_time_start (copyProperties freshComputed image) image.timeStart

/-- A layover/shadow mask image as built by `_masking`: either the freshly
computed comparison band, or the result of buffering it with `_erode`, or
the And of two masks. -/
inductive MaskImg where
  | band (name : String)
  | eroded (m : MaskImg) (distance : Int)
  | and (a b : MaskImg)
deriving DecidableEq, Repr

/-- Semantics of `_erode(image, distance)`: buffering of a raster mask. -/
def _erode (image : MaskImg) (distance : Int) : MaskImg :=
  MaskImg.eroded image distance

/-- Semantics of `_masking(alpha_rRad, theta_iRad, buffer)` at the level
of mask structure: layover and shadow are freshly computed comparison
bands, buffered with `_erode` exactly when `buffer > 0` (the two
reassignments inside the single `if` of the source are written as two
`if`s with the same condition), and no_data_mask is their And.  Returns
the triple (layover, shadow, no_data_mask). -/
def _masking (buffer : Int) : MaskImg × MaskImg × MaskImg :=
  let layover0 := MaskImg.band ("layover")
  let shadow0 := MaskImg.band ("shadow")
  let layover := if buffer > 0 then _erode layover0 buffer else layover0
  let shadow := if buffer > 0 then _erode shadow0 buffer else shadow0
  (layover, shadow, MaskImg.and layover shadow)

/-- The default `speckle_filter_dict` of `create`. -/
def defaultSpeckleDict : SpeckleFilterDict :=
  { radius := 30, units := "meters", time_window := 12 }

/-- The default `slope_correction_dict` of `create`. -/
def defaultSlopeDict : SlopeCorrectionDict :=
  { model := "volume", dem := "USGS/SRTMGL1_003", buffer := 12 }

/-- The default configuration of `create` (no dates given). -/
def baseConfig : Config :=
  { start_date := none, end_date := none, target_date := none,
    add_ratio := true, add_ND_ratio := true,
    speckle_filter := "NONE", speckle_filter_dict := defaultSpeckleDict,
    radiometric_correction := "ELLIPSOID",
    slope_correction_dict := defaultSlopeDict,
    outlier_removal := "NONE", db := true }

/-- A Sentinel-1 image used to instantiate the Quegan-filter theorems. -/
def imgA : S1Img :=
  { resolution_meters := 10, instrumentMode := "IW",
    transmitterReceiverPolarisation := ["VV", "VH"],
    timeStart := 1500000000000, relativeOrbitNumber_start := 37 }

/-- An image like `imgA` but acquired at 20 m resolution. -/
def candB : S1Img := { imgA with resolution_meters := 20 }

end EeSar

namespace EeSar

theorem steps_eq_filter (c : Config) :
    steps c = masterOrder.filter (selected c) := by
  by_cases h1 : c.speckle_filter = "BOXCAR" <;>
  by_cases h2 : c.speckle_filter = "REFINED_LEE" <;>
  by_cases h3 : c.speckle_filter = "QUEGAN" <;>
  by_cases h4 : c.speckle_filter = "SNC" <;>
  by_cases h5 : c.radiometric_correction = "ELLIPSOID" <;>
  by_cases h6 : c.radiometric_correction = "TERRAIN" <;>
  by_cases h7 : truthyOpt c.target_date <;>
  by_cases h8 : c.add_ratio <;>
  by_cases h9 : c.add_ND_ratio <;>
  by_cases h10 : c.db <;>
  simp_all [steps, masterOrder, selected, List.filter]

theorem runSteps_ok_of_model (c : Config)
    (h : c.slope_correction_dict.model = "volume" ∨
         c.slope_correction_dict.model = "surface") :
    ∀ (l : List Step) (bs : List String), (runSteps c l bs).isOk = true := by
  intro l
  induction l with
  | nil => intro bs; rfl
  | cons s rest ih =>
    intro bs
    cases s <;>
      simp only [runSteps, stepBands, correctBands] <;>
      first
      | exact ih _
      | (rcases h with h | h <;> simp [h] <;> exact ih _)

theorem runSteps_ok_of_no_terrain (c : Config) :
    ∀ (l : List Step) (bs : List String),
      Step.terrain_flattening ∉ l → (runSteps c l bs).isOk = true := by
  intro l
  induction l with
  | nil => intro bs _; rfl
  | cons s rest ih =>
    intro bs hmem
    have hs : s ≠ Step.terrain_flattening := fun h =>
      hmem (h ▸ List.mem_cons_self s rest)
    have hrest : Step.terrain_flattening ∉ rest := fun h =>
      hmem (List.mem_cons_of_mem s h)
    cases s <;> simp only [runSteps, stepBands] <;>
      first
      | exact ih _ hrest
      | exact absurd rfl hs

theorem terrain_not_mem_steps (c : Config)
    (h : c.radiometric_correction ≠ "TERRAIN") :
    Step.terrain_flattening ∉ steps c := by
  rw [steps_eq_filter]
  intro hmem
  rw [List.mem_filter] at hmem
  simp [selected, h] at hmem

theorem stepBands_no_date_band (c : Config) (s : Step) (bs out : List String)
    (hs : s ≠ Step.add_date_bands) (b : String) (hb : b ∈ dateBandNames)
    (hbs : b ∉ bs) (h : stepBands c s bs = Except.ok out) : b ∉ out := by
  simp only [dateBandNames, List.mem_cons, List.not_mem_nil, or_false] at hb
  cases s <;> simp only [stepBands] at h
  case terrain_flattening =>
    rw [correctBands] at h
    split at h
    · cases h
      rcases hb with rfl | rfl | rfl | rfl <;> simp
    · cases h
  all_goals first
    | exact absurd rfl hs
    | (cases h;
       rcases hb with rfl | rfl | rfl | rfl <;>
         simp_all [addBandsOverwrite, dateBandNames])

theorem runSteps_no_date_band (c : Config) (b : String) (hb : b ∈ dateBandNames) :
    ∀ (l : List Step) (bs out : List String), Step.add_date_bands ∉ l →
      runSteps c l bs = Except.ok out → b ∉ bs → b ∉ out := by
  intro l
  induction l with
  | nil => intro bs out _ h hbs; cases h; exact hbs
  | cons s rest ih =>
    intro bs out hmem h hbs
    have hs : s ≠ Step.add_date_bands := fun hh =>
      hmem (hh ▸ List.mem_cons_self s rest)
    have hrest : Step.add_date_bands ∉ rest := fun hh =>
      hmem (List.mem_cons_of_mem s hh)
    rw [runSteps] at h
    cases hsb : stepBands c s bs with
    | ok bs2 =>
      rw [hsb] at h
      exact ih bs2 out hrest h (stepBands_no_date_band c s bs bs2 hs b hb hbs hsb)
    | error e => rw [hsb] at h; cases h

theorem add_date_bands_mem_steps (c : Config) :
    Step.add_date_bands ∈ steps c ↔ truthyOpt c.target_date = true := by
  rw [steps_eq_filter]
  simp [List.mem_filter, masterOrder, selected]

/-- C1 (code bug): with the configuration value SNIC — the value the
docstring of `create` documents for the SNIC segmentation filter —
`pre_process` appends no SNIC step, because the source compares against
the misspelt literal SNC; the undocumented value SNC does append
`snic_filter`; and with NONE no speckle-filter step is appended (the
pipeline is exactly gamma0, ratio, ND-ratio, dB, border masking). -/
theorem C1_snic_step_selection :
    Step.snic_filter ∉ steps { baseConfig with speckle_filter := "SNIC" } ∧
    Step.snic_filter ∈ steps { baseConfig with speckle_filter := "SNC" } ∧
    steps { baseConfig with speckle_filter := "NONE" } =
      [Step.to_gamma0, Step.add_ratio_band, Step.add_ND_ratio_band,
       Step.toDb, Step.mask_borders] := by
  decide

/-- C2 counterexample: with `target_date` supplied and `start_date`
explicitly supplied as the (falsy) millisecond timestamp 0, `create` does
not leave `start_date` unchanged — the truthiness test `not start_date`
treats it as absent and overwrites it with the target date minus 183
days. -/
theorem C2_counterexample :
    (resolve_dates (some 17280000000) (some 0) none).1 = some 1468800000 ∧
    ((some 1468800000 : Option Int) ≠ some 0) := by
  decide

/-- C2 (amended): if `target_date` is truthy and `start_date` (resp.
`end_date`) is falsy (`None`, or a falsy value such as timestamp 0), the
bound is defaulted to the target date minus (resp. plus) 183 days; a
truthy explicitly supplied bound is left unchanged; with a falsy
`target_date` no defaulting happens. -/
theorem C2_date_defaulting (target start stop : Option Int) :
    (truthyOpt target = true → truthyOpt start = false →
      (resolve_dates target start stop).1 =
        some (subtract_days (target.getD 0) 183)) ∧
    (truthyOpt target = true → truthyOpt stop = false →
      (resolve_dates target start stop).2 =
        some (add_days (target.getD 0) 183)) ∧
    (truthyOpt start = true → (resolve_dates target start stop).1 = start) ∧
    (truthyOpt stop = true → (resolve_dates target start stop).2 = stop) ∧
    (truthyOpt target = false →
      resolve_dates target start stop = (start, stop)) := by
  by_cases h1 : truthyOpt target <;>
  by_cases h2 : truthyOpt start <;>
  by_cases h3 : truthyOpt stop <;>
  simp_all [resolve_dates]

/-- C2 witness: with target date at millisecond timestamp 17280000000 and
no explicit bounds, the start bound is defaulted to 183 days earlier. -/
theorem C2_date_defaulting_witness :
    (resolve_dates (some 17280000000) none none).1 =
      some (subtract_days 17280000000 183) :=
  (C2_date_defaulting (some 17280000000) none none).1 (by decide) (by decide)

/-- C3: for every configuration, the step list assembled by `pre_process`
is exactly the sublist of the fixed master order consisting of the
selected steps — every selected step is applied, in that one fixed
order, and no selected step out of it. -/
theorem C3_fixed_order (c : Config) :
    steps c = masterOrder.filter (selected c) :=
  steps_eq_filter c

/-- C4 counterexample: with TERRAIN radiometric correction and a model
string other than volume/surface in `slope_correction_dict`, building the
pipeline raises a local Python error (`scf` is never bound in
`_slope_correction.correct`) instead of surfacing remotely. -/
theorem C4_counterexample :
    pre_processE
      { baseConfig with
        radiometric_correction := "TERRAIN"
        slope_correction_dict :=
          { model := "foo", dem := "USGS/SRTMGL1_003", buffer := 12 } }
      ["VV", "VH", "angle"] = Except.error ("UnboundLocalError: scf") := rfl

/-- C4 (amended): building the pipeline raises no local error for every
configuration in which the slope-correction model is volume or surface,
or in which the terrain-flattening step is not selected at all; only the
unbound-scf slip of `_slope_correction.correct` breaks the no-local-error
property. -/
theorem C4_no_local_error (c : Config) (bs : List String)
    (h : c.slope_correction_dict.model = "volume" ∨
         c.slope_correction_dict.model = "surface" ∨
         c.radiometric_correction ≠ "TERRAIN") :
    (pre_processE c bs).isOk = true := by
  rcases h with h | h | h
  · exact runSteps_ok_of_model c (Or.inl h) _ _
  · exact runSteps_ok_of_model c (Or.inr h) _ _
  · exact runSteps_ok_of_no_terrain c _ _ (terrain_not_mem_steps c h)

/-- C4 witness: the default configuration builds without local error. -/
theorem C4_no_local_error_witness :
    (pre_processE baseConfig ["VV", "VH", "angle"]).isOk = true :=
  C4_no_local_error baseConfig ["VV", "VH", "angle"] (Or.inl rfl)

/-- C5: MODERATE outlier removal masks the collection with three standard
deviations, AGGRESSIVE with 2.6, any other value returns the collection
unmasked; and the per-pixel mask of `mask_outliers` keeps a pixel exactly
when both its VV and its VH value lie within `std_devs` standard
deviations of the collection median. -/
theorem C5_outlier_removal :
    create_outlier_stage "MODERATE" = OutlierResult.masked 3 ∧
    create_outlier_stage "AGGRESSIVE" = OutlierResult.masked 2.6 ∧
    (∀ r : String, r ≠ "MODERATE" → r ≠ "AGGRESSIVE" →
      create_outlier_stage r = OutlierResult.plain) ∧
    (∀ vv vh medVV medVH sdVV sdVH s : ℚ,
      mask_outliers_keep vv vh medVV medVH sdVV sdVH s = true ↔
        (|vv - medVV| ≤ s * sdVV ∧ |vh - medVH| ≤ s * sdVH)) := by
  refine ⟨rfl, rfl, ?_, ?_⟩
  · intro r h1 h2
    simp [create_outlier_stage, h1, h2]
  · intro vv vh medVV medVH sdVV sdVH s
    simp [mask_outliers_keep, mul_comm]

/-- C5 witness: NONE leaves the collection unmasked. -/
theorem C5_outlier_removal_witness :
    create_outlier_stage "NONE" = OutlierResult.plain :=
  C5_outlier_removal.2.2.1 "NONE" (by decide) (by decide)

/-- C6: among the radiometric-correction steps, ELLIPSOID selects exactly
`to_gamma0`, TERRAIN selects exactly `terrain_flattening` followed by
`mask_overlay`, and any other value (including NONE) selects none. -/
theorem C6_radiometric_selection (c : Config) :
    (steps c).filter isRadioStep =
    (if c.radiometric_correction = "ELLIPSOID" then [Step.to_gamma0]
     else if c.radiometric_correction = "TERRAIN" then
       [Step.terrain_flattening, Step.mask_overlay]
     else []) := by
  simp only [steps, List.filter_append]
  split_ifs <;> rfl

/-- C7 counterexample: a 20 m-resolution image acquired inside the time
window and on the same relative orbit is in the set described by the
claim, but not in the reference collection built by `_quegan.apply`,
which also filters on 10 m resolution, IW mode and VV+VH polarisation. -/
theorem C7_counterexample :
    queganRefFilterSpec advLinear 12 imgA candB = true ∧
    queganRefFilter advLinear 12 imgA candB = false := by
  decide

/-- C7 (amended): for every positive `time_window`, the reference
collection of `_quegan.apply` holds exactly the images of the set the
claim describes (acquired between `time_window` months before and after
the date of the filtered image, same relative orbit) that are additionally
10 m-resolution, IW-mode, VV+VH-polarised Sentinel-1 images. -/
theorem C7_quegan_window (advance : Int → Int → Int) (time_window : Int)
    (img cand : S1Img) (_h : 0 < time_window) :
    queganRefFilter advance time_window img cand = true ↔
      (queganRefFilterSpec advance time_window img cand = true ∧
       cand.resolution_meters = 10 ∧ cand.instrumentMode = "IW" ∧
       "VV" ∈ cand.transmitterReceiverPolarisation ∧
       "VH" ∈ cand.transmitterReceiverPolarisation) := by
  simp only [queganRefFilter, queganRefFilterSpec, Bool.and_eq_true,
    decide_eq_true_eq, beq_iff_eq, List.elem_iff]
  tauto

/-- C7 witness: the filtered image itself belongs to its own reference
collection. -/
theorem C7_quegan_window_witness :
    queganRefFilter advLinear 12 imgA imgA = true :=
  (C7_quegan_window advLinear 12 imgA imgA (by decide)).mpr (by decide)

/-- C8 counterexample: a `target_date` explicitly supplied as the falsy
timestamp 0 is specified, yet the truthiness test of `pre_process` is
false and `add_date_bands` is not appended to the pipeline. -/
theorem C8_counterexample :
    (({ baseConfig with target_date := some 0 } : Config)).target_date.isSome
      = true ∧
    Step.add_date_bands ∉ steps { baseConfig with target_date := some 0 } := by
  decide

/-- C8 (amended): the date-metadata-band step is in the pipeline iff
`target_date` is truthy (not `None` and not a falsy value such as
timestamp 0); `add_date_bands` adds the bands dayOfYear, daysFromTarget,
quality and unixTimeDays with quality equal to daysFromTarget negated;
and with a non-truthy `target_date` no image gains any of these bands. -/
theorem C8_date_bands (c : Config) (bs out : List String) (b : String)
    (day_of_year t target : ℚ) :
    (Step.add_date_bands ∈ steps c ↔ truthyOpt c.target_date = true) ∧
    (lookupBand (add_date_bands_vals day_of_year t target []) "quality" =
      (lookupBand (add_date_bands_vals day_of_year t target [])
        "daysFromTarget").map (fun d => d * (-1))) ∧
    (truthyOpt c.target_date = false → b ∈ dateBandNames → b ∉ bs →
      pre_processE c bs = Except.ok out → b ∉ out) := by
  refine ⟨add_date_bands_mem_steps c, rfl, ?_⟩
  intro hfalse hb hbs hrun
  have hmem : Step.add_date_bands ∉ steps c := by
    rw [add_date_bands_mem_steps, hfalse]
    exact Bool.false_ne_true
  exact runSteps_no_date_band c b hb (steps c) bs out hmem hrun hbs

/-- C8 witness: with the default configuration (no target date) the
quality band is not among the output bands of the pipeline. -/
theorem C8_date_bands_witness :
    "quality" ∉ ["VV", "VH", "angle", "VVVH_ratio", "VVVH_ND_ratio"] :=
  (C8_date_bands baseConfig ["VV", "VH", "angle"]
      ["VV", "VH", "angle", "VVVH_ratio", "VVVH_ND_ratio"] "quality"
      0 0 0).2.2 rfl (by decide) (by decide) rfl

/-- C9: `mask_borders` is the last step of every pipeline, and its
per-pixel mask keeps exactly the pixels with incidence angle strictly
between 31 and 45 degrees that are on a middle slice or away from the
border. -/
theorem C9_border_mask (c : Config) (angle : ℚ)
    (sliceNumber totalSlices : Int) (not_border : Bool) :
    (steps c).getLast? = some Step.mask_borders ∧
    (mask_borders_keep angle sliceNumber totalSlices not_border = true ↔
      (31 < angle ∧ angle < 45 ∧
        ((1 < sliceNumber ∧ sliceNumber < totalSlices) ∨
         not_border = true))) := by
  constructor
  · simp only [steps]
    exact List.getLast?_concat _
  · simp [mask_borders_keep, and_assoc]

/-- C10: both `_quegan.apply` and `_slope_correction.correct` return an
image whose non-system properties and system:time_start are those of the
source image, and `_masking` buffers the layover and shadow masks with
`_erode` exactly when the buffer parameter is strictly positive, leaving
them unbuffered otherwise. -/
theorem C10_metadata_and_buffer (image : EImage) (k : String) (buffer : Int) :
    ((queganApplyMeta image).timeStart = image.timeStart ∧
     getProp (queganApplyMeta image).props k = getProp image.props k) ∧
    ((correctMeta image).timeStart = image.timeStart ∧
     getProp (correctMeta image).props k = getProp image.props k) ∧
    (0 < buffer →
      (_masking buffer).1 = _erode (MaskImg.band ("layover")) buffer ∧
      (_masking buffer).2.1 = _erode (MaskImg.band ("shadow")) buffer) ∧
    (buffer ≤ 0 →
      (_masking buffer).1 = MaskImg.band ("layover") ∧
      (_masking buffer).2.1 = MaskImg.band ("shadow")) := by
  refine ⟨⟨rfl, rfl⟩, ⟨rfl, rfl⟩, ?_, ?_⟩
  · intro h
    simp [_masking, _erode, h]
  · intro h
    have h2 : ¬ (buffer > 0) := by omega
    simp [_masking, _erode, h2]

/-- C10 witness: with the default buffer of 12 m the layover mask is
buffered. -/
theorem C10_metadata_and_buffer_witness :
    (_masking 12).1 = _erode (MaskImg.band ("layover")) 12 :=
  ((C10_metadata_and_buffer ⟨[], none⟩ ("x") 12).2.2.1 (by decide)).1

end EeSar
